import Mathlib

/-!
Verification of the connection-handling engine of the local authenticating
forward proxy (`src/setup/proxy-wrapper.py`).

The Python source works on byte strings; the handlers decode them as UTF-8
(ASCII in all inputs considered here), so bytes are modelled as `List Char`
and byte chunks returned by `recv` as elements of `List (List Char)`, where
the empty chunk `[]` is `recv` returning `b""`, i.e. EOF.  Socket I/O is
modelled by explicit inputs (the chunk sequences each socket would yield)
and explicit outputs (the bytes written to each socket), and the `try/except`
control flow of the handlers by scenario flags selecting the corresponding
path through the code.
-/

/-- Boolean substring test: `containsSeq pat s` is `true` iff `pat` occurs
contiguously inside `s`.  Models Python's `pat in s` on byte strings. -/
def containsSeq (pat : List Char) : List Char → Bool
  | [] => pat.isEmpty
  | c :: rest => pat.isPrefixOf (c :: rest) || containsSeq pat rest

/-- Split a character list on every occurrence of the two-character
sequence CRLF; models Python's `data.split(b"\r\n")` (and the decoded
`str.split('\r\n')`), including the empty trailing pieces. -/
def splitCRLF : List Char → List (List Char)
  | [] => [[]]
  | '\r' :: '\n' :: rest => [] :: splitCRLF rest
  | c :: rest =>
    match splitCRLF rest with
    | [] => [[c]]
    | l :: ls => (c :: l) :: ls

/-- Join lines with CRLF separators; models Python's `'\r\n'.join(lines)`. -/
def joinCRLF : List (List Char) → List Char
  | [] => []
  | [l] => l
  | l :: ls => l ++ '\r' :: '\n' :: joinCRLF ls

/-- The accumulation loops of the source
(`handle_client` lines 161-166 and 180-184, `handle_connect` lines 78-83):
starting from the already-buffered `acc`, keep appending `recv` chunks while
the pattern `pat` is absent from the buffer; an empty chunk (EOF) stops the
loop.  The remaining-chunk list running out models the trace ending while
the loop would still be blocked in `recv`. -/
def readUntil (pat acc : List Char) : List (List Char) → List Char
  | [] => acc
  | c :: cs =>
    if containsSeq pat acc then acc
    else if c.isEmpty then acc
    else readUntil pat (acc ++ c) cs

/-- One iteration's outcome of `select.select([client, upstream], [], both, 30)`
inside `relay_data`: a 30-second timeout with nothing readable, an
exceptional condition, or one readable socket whose `recv` yields `data`
(`data = []` meaning EOF). -/
inductive SelectEvent
  | timeout
  | exceptional
  | ready (fromClient : Bool) (data : List Char)

/-- How a run of `relay_data` left the loop: `eofReturn` for the `return` on
an empty `recv`, `excBreak` for the `break` on an exceptional socket, and
`stillLooping` when the event trace ended with the loop still running. -/
inductive RelayEnd
  | eofReturn
  | excBreak
  | stillLooping
deriving DecidableEq

/-- Result of a `relay_data` run: bytes forwarded to the upstream socket,
bytes forwarded to the client socket, and how (whether) the loop ended. -/
structure RelayResult where
  toUpstream : List Char
  toClient : List Char
  ended : RelayEnd
deriving DecidableEq

/-- Shallow embedding of `relay_data` (source lines 18-35) over a trace of
`select` outcomes.  Faithful to the source: on a `select` timeout the body
does nothing and the `while True` loop simply runs `select` again. -/
def relay_data : List SelectEvent → RelayResult
  | [] => ⟨[], [], RelayEnd.stillLooping⟩
  | e :: es =>
    match e with
    | SelectEvent.timeout => relay_data es
    | SelectEvent.exceptional => ⟨[], [], RelayEnd.excBreak⟩
    | SelectEvent.ready fromClient data =>
      if data.isEmpty then ⟨[], [], RelayEnd.eofReturn⟩
      else
        let r := relay_data es
        if fromClient then ⟨data ++ r.toUpstream, r.toClient, r.ended⟩
        else ⟨r.toUpstream, data ++ r.toClient, r.ended⟩

/-- Python's `list.insert(-k, v)` for `k > 0`: insert `v` at position
`len(xs) - k`, clamped at 0 (Python clamps negative resulting indices to
the front, and so does `Nat` subtraction). -/
def pyInsertNeg (k : Nat) (v : α) (xs : List α) : List α :=
  xs.take (xs.length - k) ++ v :: xs.drop (xs.length - k)

/-- The injected header line `f"Proxy-Authorization: {self.auth_header}"`. -/
def authLine (tok : List Char) : List Char :=
  "Proxy-Authorization: ".toList ++ tok

/-- One iteration of the header-injection loop of `handle_http`
(source lines 121-128).  State: (`new_lines`, `header_added`).  The line is
appended; then, if it is non-empty, no header was added yet and it contains
a colon, lines starting with `Host:`, `GET` or `POST` are skipped
(`continue`), and otherwise `new_lines.insert(-1, ...)` places the
authorization line before the line just appended. -/
def injectStep (tok : List Char) (st : List (List Char) × Bool)
    (line : List Char) : List (List Char) × Bool :=
  let nl := st.1 ++ [line]
  if !line.isEmpty && !st.2 && line.contains ':' then
    if "Host:".toList.isPrefixOf line || "GET".toList.isPrefixOf line
        || "POST".toList.isPrefixOf line then
      (nl, st.2)
    else
      (pyInsertNeg 1 (authLine tok) nl, true)
  else
    (nl, st.2)

/-- The full header-injection pass of `handle_http` (source lines 117-132):
fold the loop over the lines, then, if no header was added,
`new_lines.insert(-2, ...)` places it before the second-to-last line. -/
def injectAuthLines (tok : List Char) (lines : List (List Char)) :
    List (List Char) :=
  let r := lines.foldl (injectStep tok) ([], false)
  if r.2 then r.1 else pyInsertNeg 2 (authLine tok) r.1

/-- The request rewriting of `handle_http` (source lines 116-134): with no
credentials the buffered request is left untouched; with a token the request
is split on CRLF, the injection loop runs, and the lines are re-joined. -/
def rewriteRequest (auth : Option (List Char)) (request : List Char) :
    List Char :=
  match auth with
  | none => request
  | some tok => joinCRLF (injectAuthLines tok (splitCRLF request))

/-- The base64 alphabet of RFC 4648, as used by `base64.b64encode`. -/
def b64Char (n : Nat) : Char :=
  "ABCDEFGHIJKLMNOPQRSTUVWXYZabcdefghijklmnopqrstuvwxyz0123456789+/".toList.getD n 'A'

/-- Standard base64 encoding of a byte list, with `=` padding; models
Python's `base64.b64encode` (source line 47). -/
def base64Encode : List Nat → List Char
  | [] => []
  | [a] => [b64Char (a / 4), b64Char (a % 4 * 16), '=', '=']
  | [a, b] => [b64Char (a / 4), b64Char (a % 4 * 16 + b / 16), b64Char (b % 16 * 4), '=']
  | a :: b :: c :: rest =>
    b64Char (a / 4) :: b64Char (a % 4 * 16 + b / 16) ::
      b64Char (b % 16 * 4 + c / 64) :: b64Char (c % 64) :: base64Encode rest

/-- The bytes of an ASCII string, as produced by Python's `str.encode()`
(for ASCII text the UTF-8 bytes are the code points). -/
def strBytes (s : String) : List Nat := s.toList.map Char.toNat

/-- Credential extraction of `ProxyHandler.__init__` (source lines 44-49).
`username`/`password` model `parsed.username`/`parsed.password` of
`urlparse`, which are `None` (here `none`) when the URL carries no userinfo
and may be the empty string; Python's truthiness test
`if parsed.username and parsed.password:` treats `None` and `""` alike. -/
def auth_header (username password : Option String) : Option (List Char) :=
  if !(username.getD "").isEmpty && !(password.getD "").isEmpty then
    some ("Basic ".toList ++
      base64Encode (strBytes (username.getD "" ++ ":" ++ password.getD "")))
  else none

/-- The upstream port computation `parsed.port or 3128` of
`ProxyHandler.__init__` (source line 42): `urlparse` yields `None` (here
`none`) when the URL has no explicit port, and Python's `or` falls through
on the falsy values `None` and `0`. -/
def pyOrPort (port : Option Nat) : Nat :=
  match port with
  | none => 3128
  | some n => if n = 0 then 3128 else n

/-- Python's `str.split()` with no argument: split on runs of (here space)
whitespace, discarding empty pieces; used on the CONNECT request line
(source line 55).  `cur` accumulates the current word. -/
def wordsAux (cur : List Char) : List Char → List (List Char)
  | [] => if cur.isEmpty then [] else [cur]
  | c :: rest =>
    if c = ' ' then
      if cur.isEmpty then wordsAux [] rest else cur :: wordsAux [] rest
    else wordsAux (cur ++ [c]) rest

/-- `request_line.split()` of `handle_connect` (source line 55). -/
def pyWords (s : List Char) : List (List Char) := wordsAux [] s

/-- The CONNECT request built and sent upstream (source lines 69-75). -/
def connectRequest (target : List Char) (auth : Option (List Char)) :
    List Char :=
  "CONNECT ".toList ++ target ++ " HTTP/1.1\r\n".toList ++
  "Host: ".toList ++ target ++ "\r\n".toList ++
  (match auth with
   | some tok => "Proxy-Authorization: ".toList ++ tok ++ "\r\n".toList
   | none => []) ++
  "\r\n".toList

/-- The relay guard of `handle_connect` (source line 89):
`b"200" in response.split(b"\r\n")[0]`. -/
def status200 (response : List Char) : Bool :=
  containsSeq "200".toList ((splitCRLF response).headD [])

def badRequest : List Char := "HTTP/1.1 400 Bad Request\r\n\r\n".toList

def badGateway : List Char := "HTTP/1.1 502 Bad Gateway\r\n\r\n".toList

/-- Observable outcome of a `handle_connect` run: everything written to each
socket (tunnel payload moved by `relay_data` is accounted separately by
`relay_data` itself), whether the relay phase was entered, and whether the
upstream socket was created and whether it was closed. -/
structure ConnectOutcome where
  sentToClient : List Char
  sentToUpstream : List Char
  relayStarted : Bool
  upstreamOpened : Bool
  upstreamClosed : Bool
deriving DecidableEq

/-- Shallow embedding of `handle_connect` (source lines 51-101).  Scenario
parameters resolve the I/O nondeterminism: `dialOk` is whether
`upstream_sock.connect` succeeds (raising otherwise), `upstreamChunks` the
`recv` chunks of the upstream response, and `relayError` whether an I/O
error is raised inside `relay_data` once the relay runs.  An exception
jumps to the `except` block (lines 94-101), which sends the best-effort 502
to the client; the `upstream_sock.close()` of line 92 is only reached on
the non-raising path, exactly as in the source. -/
def handle_connect (auth : Option (List Char)) (request_line : List Char)
    (dialOk : Bool) (upstreamChunks : List (List Char)) (relayError : Bool) :
    ConnectOutcome :=
  let parts := pyWords request_line
  if parts.length < 2 then
    ⟨badRequest, [], false, false, false⟩
  else
    let target := parts.getD 1 []
    if !dialOk then
      ⟨badGateway, [], false, true, false⟩
    else
      let response := readUntil "\r\n\r\n".toList [] upstreamChunks
      if status200 response then
        if relayError then
          ⟨response ++ badGateway, connectRequest target auth, true, true, false⟩
        else
          ⟨response, connectRequest target auth, true, true, true⟩
      else
        ⟨response, connectRequest target auth, false, true, true⟩

/-- The response-relay loop of `handle_http` (source lines 140-144): read
upstream chunks and forward each to the client until an empty `recv`. -/
def recvLoop : List (List Char) → List Char
  | [] => []
  | c :: cs => if c.isEmpty then [] else c ++ recvLoop cs

/-- Observable outcome of a `handle_http` run. -/
structure HttpOutcome where
  sentToUpstream : List Char
  sentToClient : List Char
  upstreamClosed : Bool
deriving DecidableEq

/-- Shallow embedding of `handle_http` (source lines 103-155) on the
successful-dial path.  `request_data` is the buffered block captured by
`handle_client`; `_clientBodyChunks` models whatever further bytes the
client has sent after that block — the source never performs another
`client_sock.recv` in this handler (its loop at lines 140-144 reads only
`upstream_sock`), so the parameter is unused, exactly mirroring the code. -/
def handle_http (auth : Option (List Char)) (request_data : List Char)
    (_clientBodyChunks upstreamChunks : List (List Char)) : HttpOutcome :=
  ⟨rewriteRequest auth request_data, recvLoop upstreamChunks, true⟩

/-- Where `handle_client` (source lines 157-193) routes a connection after
the first read loop: the silent `return` of line 169, the CONNECT branch,
or the plain-HTTP branch with the fully buffered header block. -/
inductive ClientAction
  | abandon
  | connectPath (request_line : List Char)
  | httpPath (request_data : List Char)
deriving DecidableEq

/-- Shallow embedding of the classification part of `handle_client`
(source lines 160-185): read until CRLF from `firstChunks`; an empty buffer
means the silent `return`; otherwise the first line routes to CONNECT, or
the read continues from `restChunks` until the blank line and the block
goes to `handle_http`. -/
def handle_client (firstChunks restChunks : List (List Char)) : ClientAction :=
  let request_data := readUntil "\r\n".toList [] firstChunks
  if request_data.isEmpty then ClientAction.abandon
  else
    let request_line := (splitCRLF request_data).headD []
    if "CONNECT".toList.isPrefixOf request_line then
      ClientAction.connectPath request_line
    else
      ClientAction.httpPath (readUntil "\r\n\r\n".toList request_data restChunks)

/-- Abstract counting state of the listener, the handler threads and the
admission semaphore of `main`/`handle_client` (source lines 157-193 and
210-232).  Handlers are counted by phase: `reading` before the
`with semaphore:` block (initial client read), `waiting` blocked in the
semaphore acquire, `holding` inside the `with` block (upstream dial/relay),
`finished` after the handler exits.  `acquired`/`released` are cumulative
counts of semaphore acquires and releases. -/
structure AdmState where
  sem : Nat
  reading : Nat
  waiting : Nat
  holding : Nat
  finished : Nat
  acquired : Nat
  released : Nat
deriving DecidableEq

/-- Transitions of the admission system.  `accept` models the listener
spawning a handler thread; `classified` a handler reaching the
`with semaphore:` statement; `earlyExit` a handler leaving before it
(empty request at line 169, or an exception caught at line 187);
`acquire` the semaphore acquire, enabled only when the counter is
positive (`threading.Semaphore` blocks otherwise); `release` any exit of
the `with` block — Python's `with` releases exactly once on both normal
exit and exception propagation. -/
inductive AdmStep : AdmState → AdmState → Prop
  | accept (s : AdmState) :
      AdmStep s { s with reading := s.reading + 1 }
  | classified (s : AdmState) (h : 0 < s.reading) :
      AdmStep s { s with reading := s.reading - 1, waiting := s.waiting + 1 }
  | earlyExit (s : AdmState) (h : 0 < s.reading) :
      AdmStep s { s with reading := s.reading - 1, finished := s.finished + 1 }
  | acquire (s : AdmState) (h : 0 < s.waiting) (hs : 0 < s.sem) :
      AdmStep s { s with waiting := s.waiting - 1, holding := s.holding + 1,
                         sem := s.sem - 1, acquired := s.acquired + 1 }
  | release (s : AdmState) (h : 0 < s.holding) :
      AdmStep s { s with holding := s.holding - 1, finished := s.finished + 1,
                         sem := s.sem + 1, released := s.released + 1 }

/-- Initial state: `threading.Semaphore(max_concurrent)` (source line 211)
and no handler threads. -/
def initAdm (maxConc : Nat) : AdmState := ⟨maxConc, 0, 0, 0, 0, 0, 0⟩

/-- States reachable from the initial state by admission transitions. -/
inductive AdmReachable (maxConc : Nat) : AdmState → Prop
  | init : AdmReachable maxConc (initAdm maxConc)
  | step {s t : AdmState} : AdmReachable maxConc s → AdmStep s t →
      AdmReachable maxConc t

/-- Helper: a run of `'a'` characters never contains the CRLF sequence. -/
theorem containsSeq_crlf_replicate (m : Nat) :
    containsSeq ['\r', '\n'] (List.replicate m 'a') = false := by
  induction m with
  | zero => rfl
  | succ m ih =>
    rw [List.replicate_succ]
    simp [containsSeq, List.isPrefixOf, ih]

/-- Helper: the classifier read loop, fed CRLF-free single-byte chunks,
accumulates every one of them. -/
theorem readUntil_replicate (n : Nat) : ∀ m : Nat,
    readUntil ['\r', '\n'] (List.replicate m 'a') (List.replicate n ['a'])
      = List.replicate (m + n) 'a' := by
  induction n with
  | zero => intro m; simp [readUntil]
  | succ n ih =>
    intro m
    rw [List.replicate_succ]
    simp only [readUntil, containsSeq_crlf_replicate, Bool.false_eq_true,
      if_false, List.isEmpty_cons]
    rw [← List.replicate_succ']
    rw [ih (m + 1)]
    congr 1
    omega

/-- C1: the claim states that `handle_http` inserts the
`Proxy-Authorization` line exactly once among the header lines, before the
terminating blank line, without altering the request line.  The source's
heuristic violates this: on a request whose request line contains a colon
(any absolute-URI request line whose method is not `GET` or `POST`, e.g.
`DELETE`), `new_lines.insert(-1, ...)` fires on the request line itself and
places the authorization header BEFORE the request line, so the first line
of the rewritten request is the injected header, not the request line. -/
theorem http_inject_misplaces_header :
    rewriteRequest (some "Basic abc".toList)
      "DELETE http://example.com/ HTTP/1.1\r\nHost: example.com\r\n\r\n".toList
    = "Proxy-Authorization: Basic abc\r\nDELETE http://example.com/ HTTP/1.1\r\nHost: example.com\r\n\r\n".toList
    ∧ (splitCRLF (rewriteRequest (some "Basic abc".toList)
        "DELETE http://example.com/ HTTP/1.1\r\nHost: example.com\r\n\r\n".toList)).headD []
      ≠ "DELETE http://example.com/ HTTP/1.1".toList := by
  constructor <;> decide

/-- C2: the claim states that when no data is available from either side
within the 30-second idle timeout, the relay exits.  In the source a
`select` timeout yields empty `readable`/`exceptional` lists, the loop body
does nothing, and `while True` runs `select` again: a timeout iteration is
indistinguishable from no iteration at all, and any number of consecutive
idle timeouts leaves the relay still looping, never exiting. -/
theorem relay_ignores_idle_timeout :
    (∀ es : List SelectEvent,
      relay_data (SelectEvent.timeout :: es) = relay_data es)
    ∧ ∀ n : Nat, relay_data (List.replicate n SelectEvent.timeout)
        = ⟨[], [], RelayEnd.stillLooping⟩ := by
  constructor
  · intro es
    rfl
  · intro n
    induction n with
    | zero => rfl
    | succ n ih =>
      rw [List.replicate_succ]
      simpa [relay_data] using ih

/-- C3: the claim states that body bytes sent by the client after the
buffered header block are passed through to the upstream.  In the source,
`handle_http` sends the buffered block and then only relays
upstream-to-client (lines 140-144); it never reads the client socket again,
so its outcome is independent of whatever body bytes the client sends, and
the bytes sent upstream are exactly the rewritten buffered block — any
later body bytes are dropped. -/
theorem http_body_never_forwarded (auth : Option (List Char))
    (request_data : List Char) (b1 b2 up : List (List Char)) :
    handle_http auth request_data b1 up = handle_http auth request_data b2 up
    ∧ (handle_http auth request_data b1 up).sentToUpstream
        = rewriteRequest auth request_data :=
  ⟨rfl, rfl⟩

/-- C4: the claim states that on a relay-phase I/O error both sockets are
closed and no response bytes are sent to the client.  In the source an
exception raised inside `relay_data` skips the `upstream_sock.close()` of
line 92 (the `except` block never closes the upstream socket) and the
handler then sends `HTTP/1.1 502 Bad Gateway` into the established tunnel
(line 99).  Evaluated on a CONNECT that tunnelled successfully
(status 200) and then hit a relay error: the upstream socket is left
unclosed and the 502 bytes are appended to what the client receives. -/
theorem connect_relay_error_leaks_socket :
    (handle_connect none "CONNECT example.com:443 HTTP/1.1".toList true
      ["HTTP/1.1 200 Connection established\r\n\r\n".toList] true).upstreamClosed
      = false
    ∧ (handle_connect none "CONNECT example.com:443 HTTP/1.1".toList true
      ["HTTP/1.1 200 Connection established\r\n\r\n".toList] true).sentToClient
      = "HTTP/1.1 200 Connection established\r\n\r\n".toList ++ badGateway := by
  constructor <;> decide

/-- C5: for every CONNECT negotiation with a well-formed request line and a
successful upstream dial, the accumulated upstream response bytes are
forwarded to the client unmodified, and the relay phase begins if and only
if the first line of that response contains the token `200`; any other
status leaves the relay unentered (and the upstream socket closed). -/
theorem connect_forwards_response_and_gates_relay (auth : Option (List Char))
    (rl : List Char) (chunks : List (List Char))
    (h : 2 ≤ (pyWords rl).length) :
    (handle_connect auth rl true chunks false).sentToClient
      = readUntil "\r\n\r\n".toList [] chunks
    ∧ (handle_connect auth rl true chunks false).relayStarted
      = status200 (readUntil "\r\n\r\n".toList [] chunks)
    ∧ (status200 (readUntil "\r\n\r\n".toList [] chunks) = false →
        (handle_connect auth rl true chunks false).relayStarted = false
        ∧ (handle_connect auth rl true chunks false).upstreamClosed = true) := by
  unfold handle_connect
  rw [if_neg (by omega)]
  have e : ("\r\n\r\n".toList : List Char) = ['\r', '\n', '\r', '\n'] := rfl
  rw [e]
  by_cases hs : status200 (readUntil ['\r', '\n', '\r', '\n'] [] chunks) <;>
    simp [hs]

/-- Witness for C5 at a concrete CONNECT exchange with a 200 response. -/
theorem connect_forwards_response_and_gates_relay_witness :
    2 ≤ (pyWords "CONNECT example.com:443 HTTP/1.1".toList).length
    ∧ (handle_connect none "CONNECT example.com:443 HTTP/1.1".toList true
        ["HTTP/1.1 200 Connection established\r\n\r\n".toList] false).sentToClient
      = "HTTP/1.1 200 Connection established\r\n\r\n".toList := by
  refine ⟨by decide, ?_⟩
  have h := (connect_forwards_response_and_gates_relay none
    "CONNECT example.com:443 HTTP/1.1".toList
    ["HTTP/1.1 200 Connection established\r\n\r\n".toList] (by decide)).1
  rw [h]
  decide

/-- C6 counterexample: a client that sends the single byte `X` and then
closes (EOF) has not delivered a full CRLF-terminated line, yet
`handle_client` does not abandon the connection: the buffered byte is
non-empty, so the handler proceeds to the plain-HTTP branch (which dials
the upstream proxy), contradicting the claim that such a connection is
abandoned silently with no upstream connection. -/
theorem partial_line_not_abandoned :
    handle_client ["X".toList, []] [] = ClientAction.httpPath "X".toList
    ∧ handle_client ["X".toList, []] [] ≠ ClientAction.abandon := by
  constructor <;> decide

/-- C6 (amended): `handle_client` abandons the connection silently — the
bare `return` of line 169, reached before any response, any upstream dial
and the semaphore — exactly when the client stream closed having delivered
no bytes at all; whenever any bytes were buffered (even without a full
CRLF-terminated line) the handler instead proceeds to classify them. -/
theorem abandon_iff_no_bytes_received (firstChunks restChunks : List (List Char)) :
    handle_client firstChunks restChunks = ClientAction.abandon
      ↔ readUntil "\r\n".toList [] firstChunks = [] := by
  unfold handle_client
  have e : ("\r\n".toList : List Char) = ['\r', '\n'] := rfl
  rw [e]
  by_cases h : readUntil ['\r', '\n'] [] firstChunks = []
  · simp [h]
  · rw [if_neg (by simpa [List.isEmpty_iff] using h)]
    simp only [h, iff_false]
    split <;> simp

/-- C7: the claim states that the classifier's first read loop keeps the
buffered bytes below a fixed cap of a few tens of KB.  The source loop
(lines 162-166) has no bound at all: for every candidate cap there is a
CRLF-free chunk sequence after which the buffer is strictly larger than the
cap, so no fixed bound on the buffered bytes exists. -/
theorem classifier_buffer_unbounded (cap : Nat) :
    ∃ chunks : List (List Char), (∀ c ∈ chunks, c = ['a'])
      ∧ cap < (readUntil "\r\n".toList [] chunks).length := by
  refine ⟨List.replicate (cap + 1) ['a'],
    fun c hc => List.eq_of_mem_replicate hc, ?_⟩
  show cap < (readUntil ['\r', '\n'] (List.replicate 0 'a')
    (List.replicate (cap + 1) ['a'])).length
  rw [readUntil_replicate (cap + 1) 0]
  simp

/-- C8: in every reachable state of the admission system, the number of
handlers inside the `with semaphore:` block (performing upstream dial or
relay) never exceeds the configured maximum, the semaphore counter plus the
holders always equals the maximum (token conservation: no token is lost or
duplicated), and the cumulative acquires equal the cumulative releases plus
the current holders — every acquired token still outstanding is held by
exactly one running handler and every finished acquire was released exactly
once, on error paths included. -/
theorem admission_semaphore_invariant (maxConc : Nat) (s : AdmState)
    (h : AdmReachable maxConc s) :
    s.holding ≤ maxConc ∧ s.sem + s.holding = maxConc
    ∧ s.acquired = s.released + s.holding := by
  have key : s.sem + s.holding = maxConc
      ∧ s.acquired = s.released + s.holding := by
    induction h with
    | init => simp [initAdm]
    | step hr st ih =>
      cases st <;> simp_all <;> omega
  exact ⟨by omega, key.1, key.2⟩

/-- Witness for C8: the state after accepting one connection, classifying
it and acquiring the semaphore, with capacity 20. -/
theorem admission_semaphore_invariant_witness :
    AdmReachable 20 ⟨19, 0, 0, 1, 0, 1, 0⟩
    ∧ ((1 : Nat) ≤ 20 ∧ 19 + 1 = 20 ∧ (1 : Nat) = 0 + 1) := by
  have h1 : AdmReachable 20 ⟨20, 1, 0, 0, 0, 0, 0⟩ :=
    AdmReachable.step AdmReachable.init (AdmStep.accept _)
  have h2 : AdmReachable 20 ⟨20, 0, 1, 0, 0, 0, 0⟩ :=
    AdmReachable.step h1 (AdmStep.classified _ (by decide))
  have h3 : AdmReachable 20 ⟨19, 0, 0, 1, 0, 1, 0⟩ :=
    AdmReachable.step h2 (AdmStep.acquire _ (by decide) (by decide))
  exact ⟨h3, admission_semaphore_invariant 20 _ h3⟩

/-- C9: when both username and password are present (non-empty — Python's
truthiness test treats the empty string like `None`), the authorization
token is `Basic ` followed by the base64 encoding of `username:password`;
when either is missing the token is `none`, and with no token the HTTP
rewriter leaves every request untouched, so no `Proxy-Authorization`
header is ever added. -/
theorem auth_token_formula (u p : String)
    (hu : u.isEmpty = false) (hp : p.isEmpty = false) :
    auth_header (some u) (some p)
      = some ("Basic ".toList ++ base64Encode (strBytes (u ++ ":" ++ p)))
    ∧ (∀ x y : Option String,
        ((x.getD "").isEmpty || (y.getD "").isEmpty) = true →
        auth_header x y = none)
    ∧ ∀ r : List Char, rewriteRequest none r = r := by
  refine ⟨?_, ?_, fun r => rfl⟩
  · simp [auth_header, hu, hp]
  · intro x y hxy
    cases hx : (x.getD "").isEmpty <;> cases hy : (y.getD "").isEmpty <;>
      simp_all [auth_header]

/-- Witness for C9: `user`/`pass` yields the well-known token
`Basic dXNlcjpwYXNz`. -/
theorem auth_token_formula_witness :
    ("user" : String).isEmpty = false
    ∧ auth_header (some "user") (some "pass")
      = some "Basic dXNlcjpwYXNz".toList := by
  refine ⟨by decide, ?_⟩
  have h := (auth_token_formula "user" "pass" (by decide) (by decide)).1
  rw [h]
  decide

/-- C10: an upstream proxy URL with no explicit port (`urlparse` yields
`None`) makes `parsed.port or 3128` default the upstream port to 3128. -/
theorem default_upstream_port : pyOrPort none = 3128 := rfl
